import Mathlib

/-!
Verification of the FBP_CUDA orchestration layer
(`src/CudaFilteredBackProjectionAlgorithm.cpp` of the astra-toolbox).

The C++ code is shallowly embedded: the algorithm instance becomes an
explicit state record, each member function becomes a state-passing Lean
function, and the external collaborators (the base 2-D reconstruction
lifecycle, the dataset manager, the CUDA engine) are modelled as
parameters.  `float` values are never computed with in this file — they
are only stored, copied and compared — so they are modelled as rationals.
-/

set_option maxHeartbeats 1000000

namespace astra

/-- The `E_FBPFILTER` enumeration.  The last four constructors are the
custom-data kinds; the rest are the analytic kinds. -/
inductive E_FBPFILTER where
  | FILTER_NONE
  | FILTER_RAMLAK
  | FILTER_SHEPPLOGAN
  | FILTER_COSINE
  | FILTER_HAMMING
  | FILTER_HANN
  | FILTER_TUKEY
  | FILTER_LANCZOS
  | FILTER_TRIANGULAR
  | FILTER_GAUSSIAN
  | FILTER_BARTLETTHANN
  | FILTER_BLACKMAN
  | FILTER_NUTTALL
  | FILTER_BLACKMANHARRIS
  | FILTER_BLACKMANNUTTALL
  | FILTER_FLATTOP
  | FILTER_KAISER
  | FILTER_PARZEN
  | FILTER_PROJECTION
  | FILTER_SINOGRAM
  | FILTER_RPROJECTION
  | FILTER_RSINOGRAM
  deriving DecidableEq

open E_FBPFILTER

/-- ASCII lower-casing, as performed by the C `tolower` underlying
`strcasecmp` / `_stricmp` in the default locale. -/
def asciiLower (c : Char) : Char :=
  if 'A' ≤ c ∧ c ≤ 'Z' then Char.ofNat (c.toNat + 32) else c

/-- `stringCompareLowerCase`: case-insensitive string equality
(`strcasecmp(a, b) == 0`). -/
def stringCompareLowerCase (a b : String) : Bool :=
  a.data.map asciiLower == b.data.map asciiLower

/-- `CCudaFilteredBackProjectionAlgorithm::_convertStringToFilter`.
Returns the resolved kind together with a flag recording whether the
final `else` branch logged the `ASTRA_ERROR` diagnostic (`true` exactly
when no table entry matched). -/
def _convertStringToFilter (filterType : String) : E_FBPFILTER × Bool :=
  if stringCompareLowerCase filterType "ram-lak" then (FILTER_RAMLAK, false)
  else if stringCompareLowerCase filterType "shepp-logan" then (FILTER_SHEPPLOGAN, false)
  else if stringCompareLowerCase filterType "cosine" then (FILTER_COSINE, false)
  else if stringCompareLowerCase filterType "hamming" then (FILTER_HAMMING, false)
  else if stringCompareLowerCase filterType "hann" then (FILTER_HANN, false)
  else if stringCompareLowerCase filterType "none" then (FILTER_NONE, false)
  else if stringCompareLowerCase filterType "tukey" then (FILTER_TUKEY, false)
  else if stringCompareLowerCase filterType "lanczos" then (FILTER_LANCZOS, false)
  else if stringCompareLowerCase filterType "triangular" then (FILTER_TRIANGULAR, false)
  else if stringCompareLowerCase filterType "gaussian" then (FILTER_GAUSSIAN, false)
  else if stringCompareLowerCase filterType "barlett-hann" then (FILTER_BARTLETTHANN, false)
  else if stringCompareLowerCase filterType "blackman" then (FILTER_BLACKMAN, false)
  else if stringCompareLowerCase filterType "nuttall" then (FILTER_NUTTALL, false)
  else if stringCompareLowerCase filterType "blackman-harris" then (FILTER_BLACKMANHARRIS, false)
  else if stringCompareLowerCase filterType "blackman-nuttall" then (FILTER_BLACKMANNUTTALL, false)
  else if stringCompareLowerCase filterType "flat-top" then (FILTER_FLATTOP, false)
  else if stringCompareLowerCase filterType "kaiser" then (FILTER_KAISER, false)
  else if stringCompareLowerCase filterType "parzen" then (FILTER_PARZEN, false)
  else if stringCompareLowerCase filterType "projection" then (FILTER_PROJECTION, false)
  else if stringCompareLowerCase filterType "sinogram" then (FILTER_SINOGRAM, false)
  else if stringCompareLowerCase filterType "rprojection" then (FILTER_RPROJECTION, false)
  else if stringCompareLowerCase filterType "rsinogram" then (FILTER_RSINOGRAM, false)
  else (FILTER_NONE, true)

/-- The strings the `_convertStringToFilter` match table tests against, in
source order.  (Note the eleventh entry is spelled `barlett-hann` in the
source.) -/
def catalogStrings : List String :=
  ["ram-lak", "shepp-logan", "cosine", "hamming", "hann", "none", "tukey",
   "lanczos", "triangular", "gaussian", "barlett-hann", "blackman", "nuttall",
   "blackman-harris", "blackman-nuttall", "flat-top", "kaiser", "parzen",
   "projection", "sinogram", "rprojection", "rsinogram"]

/-- A 2-D projection dataset (`CFloat32ProjectionData2D`), reduced to the
observations the embedded code makes of it: detector count and projection
angle count of its geometry, its raw data buffer, its `isInitialized` flag,
and whether its geometry `dynamic_cast`s to `CFanFlatProjectionGeometry2D`. -/
structure Dataset where
  detectorCount : Nat
  angleCount : Nat
  data : List ℚ
  initialized : Bool
  isFanFlat : Bool
  deriving DecidableEq

/-- A 2-D volume dataset (`CFloat32VolumeData2D`), reduced to its
`isInitialized` flag. -/
structure VolumeDataset where
  initialized : Bool
  deriving DecidableEq

/-- The members of `CCudaFilteredBackProjectionAlgorithm` (including the
inherited members the file reads or writes).  `m_pfFilter` is `none` for a
NULL pointer and `some buf` for an owned heap buffer holding `buf`.
`liveFilterAllocs` is ghost instrumentation: the net number of
`new float[]` allocations for `m_pfFilter` not yet matched by a
`delete[]`, used to state the leak-freedom claims. -/
structure AlgState where
  m_bIsInitialized : Bool
  m_pSinogram : Option Dataset
  m_pReconstruction : Option VolumeDataset
  m_iGPUIndex : Int
  m_iPixelSuperSampling : Int
  m_eFilter : E_FBPFILTER
  m_pfFilter : Option (List ℚ)
  m_iFilterWidth : Int
  m_bShortScan : Bool
  m_fFilterParameter : ℚ
  m_fFilterD : ℚ
  m_pAlgo : Bool
  m_bAlgoInit : Bool
  liveFilterAllocs : Nat
  deriving DecidableEq

/-- `CCudaFilteredBackProjectionAlgorithm::check`.  Returns the state after
the call, the boolean result, and the `ASTRA_CONFIG_CHECK` error message
(if any) reported on the first violated precondition.  The conditions are
tested in source order; on success the instance is marked initialized. -/
def check (s : AlgState) : AlgState × Bool × Option String :=
  match s.m_pSinogram with
  | none => (s, false, some "Invalid Projection Data Object.")
  | some sino =>
    match s.m_pReconstruction with
    | none => (s, false, some "Invalid Reconstruction Data Object.")
    | some recon =>
      if (s.m_eFilter = FILTER_PROJECTION ∨ s.m_eFilter = FILTER_SINOGRAM ∨
          s.m_eFilter = FILTER_RPROJECTION ∨ s.m_eFilter = FILTER_RSINOGRAM) ∧
          s.m_pfFilter = none then
        (s, false, some "Invalid filter pointer.")
      else if sino.initialized = false then
        (s, false, some "Projection Data Object Not Initialized.")
      else if recon.initialized = false then
        (s, false, some "Reconstruction Data Object Not Initialized.")
      else if ¬ (s.m_iGPUIndex ≥ -1) then
        (s, false, some "GPUIndex must be a non-negative integer or -1.")
      else if ¬ (s.m_iPixelSuperSampling ≥ 0) then
        (s, false, some "PixelSuperSampling must be a non-negative integer.")
      else
        ({ s with m_bIsInitialized := true }, true, none)

/-- The custom-data filter kinds (those requiring an externally supplied
coefficient buffer), as enumerated in `check`. -/
def isCustomDataKind (f : E_FBPFILTER) : Bool :=
  f = FILTER_PROJECTION ∨ f = FILTER_SINOGRAM ∨
  f = FILTER_RPROJECTION ∨ f = FILTER_RSINOGRAM

/-- Modelled from the spec: `clear()` belongs to the base reconstruction
lifecycle and is not part of this source file; per the spec,
"Re-invoking initialization at any point first performs a full clear:
release owned buffer, release any bound engine handle, reset scalars to
defaults, transition to Unconfigured."  Releasing the owned buffer
decrements the ghost allocation count when a buffer was held
(`delete[] NULL` is a no-op) and nulls the pointer, so no dangling
reference survives the clear. -/
def clear (s : AlgState) : AlgState :=
  { s with
    liveFilterAllocs := s.liveFilterAllocs - (if s.m_pfFilter.isSome then 1 else 0),
    m_pfFilter := none,
    m_iFilterWidth := 0,
    m_pAlgo := false,
    m_bAlgoInit := false,
    m_fFilterParameter := -1,
    m_fFilterD := 1,
    m_bShortScan := false,
    m_bIsInitialized := false }

/-- Modelled from the spec: the constructor delegates to the base
lifecycle's `_clear()` (not in this source file), which per the spec
leaves the instance with defaults — datasets unbound, device index −1
("unspecified/default"), supersampling 0; the constructor body itself then
sets `m_bIsInitialized = false`, `m_pfFilter = NULL`,
`m_fFilterParameter = -1.0f`, `m_fFilterD = 1.0f`.  The members
`m_eFilter`, `m_iFilterWidth` and `m_bShortScan` are assigned by neither,
so the model takes their indeterminate initial contents as parameters. -/
def mkInstance (eFilter0 : E_FBPFILTER) (width0 : Int) (shortScan0 : Bool) : AlgState :=
  { m_bIsInitialized := false
    m_pSinogram := none
    m_pReconstruction := none
    m_iGPUIndex := -1
    m_iPixelSuperSampling := 0
    m_eFilter := eFilter0
    m_pfFilter := none
    m_iFilterWidth := width0
    m_bShortScan := shortScan0
    m_fFilterParameter := -1
    m_fFilterD := 1
    m_pAlgo := false
    m_bAlgoInit := false
    liveFilterAllocs := 0 }

/-- Modelled from the spec: the outcome of the shared 2-D setup performed
by `CCudaReconstructionAlgorithm2D` (the external base lifecycle, not in
this source file): it binds the projection and reconstruction datasets and
selects the device index and the pixel supersampling factor.
`initializeFromProjector()` (also external) contributes to the same
device/supersampling selection and is absorbed here. -/
structure BaseSetup where
  sinogram : Dataset
  reconstruction : VolumeDataset
  gpuIndex : Int
  pixelSuperSampling : Int
  deriving DecidableEq

/-- The configuration node tree, reduced to the five fields this file
reads.  `none` models an absent node/option. -/
structure Config where
  filterType : Option String
  filterSinogramId : Option Int
  filterParameter : Option ℚ
  filterD : Option ℚ
  shortScan : Option Bool
  deriving DecidableEq

/-- The tail of `initialize(const Config&)` after the filter buffer has
been dealt with: parse `FilterParameter` (default −1.0) and `FilterD`
(default 1.0); when the bound sinogram's geometry is fan-flat, read the
`ShortScan` option (default `false`); construct the engine handle
(`m_pAlgo = new astraCUDA::FBP()`, `m_bAlgoInit = false`); finally
`return check()`. -/
def initTail (cfg : Config) (s : AlgState) : AlgState × Bool :=
  let s1 := { s with m_fFilterParameter := cfg.filterParameter.getD (-1) }
  let s2 := { s1 with m_fFilterD := cfg.filterD.getD 1 }
  let s3 :=
    if (match s2.m_pSinogram with
        | some sino => sino.isFanFlat
        | none => false) then
      { s2 with m_bShortScan := cfg.shortScan.getD false }
    else s2
  let s4 := { s3 with m_pAlgo := true, m_bAlgoInit := false }
  let r := check s4
  (r.1, r.2.1)

/-- `CCudaFilteredBackProjectionAlgorithm::initialize(const Config&)`
(the declarative entry point).  `base` is the outcome of the external
base-lifecycle setup (`none` models its failure, propagated as overall
failure); `lookup` is the dataset manager's `get` composed with the
`dynamic_cast` to `CFloat32ProjectionData2D` (`none` for an unknown id or
a dataset of the wrong dynamic type).  A result of `none` models the
crash from dereferencing the NULL `pFilterData` pointer: the source
reads `pFilterData->getGeometry()` without any null check. -/
def init_cfg (base : Option BaseSetup) (lookup : Int → Option Dataset)
    (cfg : Config) (s : AlgState) : Option (AlgState × Bool) :=
  let s0 := if s.m_bIsInitialized then clear s else s
  match base with
  | none => some ({ s0 with m_bIsInitialized := false }, false)
  | some b =>
    let s1 := { s0 with
                m_bIsInitialized := true,
                m_pSinogram := some b.sinogram,
                m_pReconstruction := some b.reconstruction,
                m_iGPUIndex := b.gpuIndex,
                m_iPixelSuperSampling := b.pixelSuperSampling }
    let s2 :=
      match cfg.filterType with
      | some str => { s1 with m_eFilter := (_convertStringToFilter str).1 }
      | none => { s1 with m_eFilter := FILTER_RAMLAK }
    match cfg.filterSinogramId with
    | some id =>
      match lookup id with
      | none => none
      | some ds =>
        let w := ds.detectorCount
        let a := ds.angleCount
        let s3 := { s2 with
                    m_iFilterWidth := (w : Int),
                    m_pfFilter := some (ds.data.take (w * a)),
                    liveFilterAllocs := s2.liveFilterAllocs + 1 }
        some (initTail cfg s3)
    | none =>
      let s3 := { s2 with m_iFilterWidth := 0, m_pfFilter := none }
      some (initTail cfg s3)

/-- `CCudaFilteredBackProjectionAlgorithm::initialize(...)` (the
programmatic entry point).  `pfFilter` is `none` for a NULL raw pointer
and `some arr` for a pointer to the coefficients `arr`; `memcpy` of `n`
floats from it is modelled as `arr.take n`. -/
def init_prog (s : AlgState) (sino : Dataset) (recon : VolumeDataset)
    (eFilter : E_FBPFILTER) (pfFilter : Option (List ℚ)) (iFilterWidth : Int)
    (iGPUIndex : Int) (fFilterParameter : ℚ) : AlgState × Bool :=
  let s0 := if s.m_bIsInitialized then clear s else s
  let s1 := { s0 with
              m_pSinogram := some sino,
              m_pReconstruction := some recon,
              m_iGPUIndex := iGPUIndex,
              m_eFilter := eFilter,
              m_iFilterWidth := iFilterWidth,
              m_bShortScan := false,
              m_bIsInitialized := true,
              m_pAlgo := true,
              m_bAlgoInit := false }
  let s2 :=
    match pfFilter with
    | some arr =>
      let iFilterElementCount : Nat :=
        if eFilter ≠ FILTER_SINOGRAM ∧ eFilter ≠ FILTER_RSINOGRAM then
          iFilterWidth.toNat
        else
          sino.angleCount
      { s1 with
        m_pfFilter := some (arr.take iFilterElementCount),
        liveFilterAllocs := s1.liveFilterAllocs + 1 }
    | none => { s1 with m_pfFilter := none }
  let s3 := { s2 with m_fFilterParameter := fFilterParameter }
  let r := check s3
  (r.1, r.2.1)

/-- The external CUDA engine (`astraCUDA::FBP`), reduced to the two
configuration calls this file makes on it, each returning a success
indicator. -/
structure FBPEngine where
  setFilter : E_FBPFILTER → Option (List ℚ) → Int → ℚ → ℚ → Bool
  setShortScan : Bool → Bool

/-- Outcome of the lazy engine binding: either aborted by
`ASTRA_ASSERT` after the fatal `ASTRA_ERROR` diagnostic, or the run
proceeds (with `shortScanFailureLogged` recording whether the non-fatal
short-scan diagnostic was logged). -/
inductive EngineBindOutcome where
  | aborted (diagnostic : String)
  | proceeds (shortScanFailureLogged : Bool)
  deriving DecidableEq

/-- `CCudaFilteredBackProjectionAlgorithm::initCUDAAlgorithm`: push the
resolved filter state into the engine.  A failed `setFilter` logs
`ASTRA_ERROR` and aborts via `ASTRA_ASSERT(ok)`; a failed `setShortScan`
only logs and the run proceeds. -/
def initCUDAAlgorithm (eng : FBPEngine) (s : AlgState) : EngineBindOutcome :=
  let ok := eng.setFilter s.m_eFilter s.m_pfFilter s.m_iFilterWidth
              s.m_fFilterD s.m_fFilterParameter
  if ok = false then
    .aborted "CCudaFilteredBackProjectionAlgorithm: Failed to set filter"
  else
    let ok2 := ok && eng.setShortScan s.m_bShortScan
    if ok2 = false then .proceeds true else .proceeds false

/-- One invocation of either initialization entry point, for reasoning
about arbitrary re-initialization sequences. -/
inductive InitCall where
  | declarative (base : Option BaseSetup) (lookup : Int → Option Dataset) (cfg : Config)
  | programmatic (sino : Dataset) (recon : VolumeDataset) (eFilter : E_FBPFILTER)
      (pfFilter : Option (List ℚ)) (iFilterWidth : Int) (iGPUIndex : Int)
      (fFilterParameter : ℚ)

/-- Run a sequence of initialization calls from a starting state.
`none` propagates the crash of the unchecked dataset lookup. -/
def runInits : AlgState → List InitCall → Option AlgState
  | s, [] => some s
  | s, c :: rest =>
    match c with
    | .declarative base lookup cfg =>
      match init_cfg base lookup cfg s with
      | none => none
      | some (s2, _) => runInits s2 rest
    | .programmatic sino recon eFilter pfFilter w gpu p =>
      runInits (init_prog s sino recon eFilter pfFilter w gpu p).1 rest

/-! ### Helper lemmas -/

/-- `check` either leaves the state unchanged (a precondition failed) or
only sets `m_bIsInitialized`. -/
theorem check_state_cases (s : AlgState) :
    (check s).1 = s ∨ (check s).1 = { s with m_bIsInitialized := true } := by
  cases hs : s.m_pSinogram with
  | none => simp [check, hs]
  | some sino =>
    cases hr : s.m_pReconstruction with
    | none => simp [check, hs, hr]
    | some recon =>
      simp only [check, hs, hr]
      repeat' split
      all_goals simp

theorem check_pfFilter (s : AlgState) : (check s).1.m_pfFilter = s.m_pfFilter := by
  rcases check_state_cases s with h | h <;> rw [h]

theorem check_liveFilterAllocs (s : AlgState) :
    (check s).1.liveFilterAllocs = s.liveFilterAllocs := by
  rcases check_state_cases s with h | h <;> rw [h]

theorem check_iFilterWidth (s : AlgState) :
    (check s).1.m_iFilterWidth = s.m_iFilterWidth := by
  rcases check_state_cases s with h | h <;> rw [h]

theorem check_shortScan (s : AlgState) :
    (check s).1.m_bShortScan = s.m_bShortScan := by
  rcases check_state_cases s with h | h <;> rw [h]

theorem check_isInit_true (s : AlgState) (h : s.m_bIsInitialized = true) :
    (check s).1.m_bIsInitialized = true := by
  rcases check_state_cases s with h2 | h2
  · rw [h2]; exact h
  · rw [h2]

theorem check_isInit_unchanged_of_fail (s : AlgState) (h : (check s).2.1 = false) :
    (check s).1.m_bIsInitialized = s.m_bIsInitialized := by
  cases hs : s.m_pSinogram with
  | none => simp [check, hs]
  | some sino =>
    cases hr : s.m_pReconstruction with
    | none => simp [check, hs, hr]
    | some recon =>
      simp only [check, hs, hr] at h ⊢
      repeat' split
      all_goals simp_all

/-- On a failed `check`, an `ASTRA_CONFIG_CHECK` error message is
reported. -/
theorem check_fail_reports (s : AlgState) (h : (check s).2.1 = false) :
    (check s).2.2.isSome = true := by
  cases hs : s.m_pSinogram with
  | none => simp [check, hs]
  | some sino =>
    cases hr : s.m_pReconstruction with
    | none => simp [check, hs, hr]
    | some recon =>
      simp only [check, hs, hr] at h ⊢
      repeat' split
      all_goals simp_all

/-- Fields of the state after `initTail` not touched by the tail of the
declarative path. -/
theorem initTail_pfFilter (cfg : Config) (s : AlgState) :
    (initTail cfg s).1.m_pfFilter = s.m_pfFilter := by
  simp only [initTail]
  split <;> rw [check_pfFilter]

theorem initTail_liveFilterAllocs (cfg : Config) (s : AlgState) :
    (initTail cfg s).1.liveFilterAllocs = s.liveFilterAllocs := by
  simp only [initTail]
  split <;> rw [check_liveFilterAllocs]

theorem initTail_iFilterWidth (cfg : Config) (s : AlgState) :
    (initTail cfg s).1.m_iFilterWidth = s.m_iFilterWidth := by
  simp only [initTail]
  split <;> rw [check_iFilterWidth]

theorem initTail_isInit_true (cfg : Config) (s : AlgState)
    (h : s.m_bIsInitialized = true) :
    (initTail cfg s).1.m_bIsInitialized = true := by
  simp only [initTail]
  split <;> exact check_isInit_true _ h

/-! ### Claim theorems -/

/-- C1: `check()` returns `true` exactly when all five validator
preconditions hold: the projection dataset is present and initialized,
the reconstruction dataset is present and initialized, the owned filter
buffer is non-null whenever the filter kind is one of the custom-data
kinds (projection, sinogram, rprojection, rsinogram), the device index
is ≥ −1, and the supersampling factor is ≥ 0.  In particular, with all
else valid, `check()` fails for device index −2, succeeds for −1 and any
value ≥ 0, and succeeds with a null buffer for every analytic kind. -/
theorem check_true_iff_preconditions (s : AlgState) :
    (check s).2.1 = true ↔
      ((∃ sino, s.m_pSinogram = some sino ∧ sino.initialized = true) ∧
       (∃ recon, s.m_pReconstruction = some recon ∧ recon.initialized = true) ∧
       (isCustomDataKind s.m_eFilter = true → s.m_pfFilter ≠ none) ∧
       -1 ≤ s.m_iGPUIndex ∧ 0 ≤ s.m_iPixelSuperSampling) := by
  cases hs : s.m_pSinogram with
  | none => simp [check, hs]
  | some sino =>
    cases hr : s.m_pReconstruction with
    | none => simp [check, hs, hr]
    | some recon =>
      simp only [check, hs, hr, isCustomDataKind]
      repeat' split
      all_goals simp_all

/-- Concrete fixtures used by witness theorems. -/
def wSino : Dataset :=
  { detectorCount := 2, angleCount := 3, data := [1, 2, 3, 4, 5, 6],
    initialized := true, isFanFlat := false }

def wRecon : VolumeDataset := { initialized := true }

def wBase : BaseSetup :=
  { sinogram := wSino, reconstruction := wRecon, gpuIndex := 0,
    pixelSuperSampling := 1 }

def wCfgEmpty : Config :=
  { filterType := none, filterSinogramId := none, filterParameter := none,
    filterD := none, shortScan := none }

/-- C3 (code-bug evidence): the published catalog name `bartlett-hann`
does not resolve to the bartlett-hann kind.  The match table spells its
entry `barlett-hann`, so `"bartlett-hann"` (in any case variant) falls
through to the diagnostic branch and yields the "none" kind, and only
the misspelling resolves to `FILTER_BARTLETTHANN`; the other names
resolve as the claim states (e.g. `"RAM-LAK"`, `"Shepp-Logan"`). -/
theorem bartlett_hann_resolves_to_none :
    _convertStringToFilter "bartlett-hann" = (FILTER_NONE, true) ∧
    _convertStringToFilter "BARTLETT-HANN" = (FILTER_NONE, true) ∧
    _convertStringToFilter "barlett-hann" = (FILTER_BARTLETTHANN, false) ∧
    _convertStringToFilter "RAM-LAK" = (FILTER_RAMLAK, false) ∧
    _convertStringToFilter "Shepp-Logan" = (FILTER_SHEPPLOGAN, false) := by
  decide

/-- C7: during lazy engine binding, a failed `setFilter` is fatal — the
run aborts with the filter diagnostic — while a failed `setShortScan`
alone is only logged and the run proceeds. -/
theorem engine_binding_failure_asymmetry (eng : FBPEngine) (s : AlgState) :
    (eng.setFilter s.m_eFilter s.m_pfFilter s.m_iFilterWidth s.m_fFilterD
        s.m_fFilterParameter = false →
      initCUDAAlgorithm eng s =
        .aborted "CCudaFilteredBackProjectionAlgorithm: Failed to set filter") ∧
    (eng.setFilter s.m_eFilter s.m_pfFilter s.m_iFilterWidth s.m_fFilterD
        s.m_fFilterParameter = true →
      initCUDAAlgorithm eng s =
        .proceeds (!eng.setShortScan s.m_bShortScan)) := by
  constructor
  · intro h
    simp [initCUDAAlgorithm, h]
  · intro h
    simp only [initCUDAAlgorithm, h]
    cases h2 : eng.setShortScan s.m_bShortScan <;> simp [h2]

theorem engine_binding_failure_asymmetry_witness :
    initCUDAAlgorithm ⟨fun _ _ _ _ _ => false, fun _ => true⟩
        (mkInstance FILTER_NONE 0 false) =
      .aborted "CCudaFilteredBackProjectionAlgorithm: Failed to set filter" ∧
    initCUDAAlgorithm ⟨fun _ _ _ _ _ => true, fun _ => false⟩
        (mkInstance FILTER_NONE 0 false) = .proceeds true := by
  constructor
  · exact (engine_binding_failure_asymmetry
      ⟨fun _ _ _ _ _ => false, fun _ => true⟩ (mkInstance FILTER_NONE 0 false)).1 rfl
  · have h := (engine_binding_failure_asymmetry
      ⟨fun _ _ _ _ _ => true, fun _ => false⟩ (mkInstance FILTER_NONE 0 false)).2 rfl
    simpa using h

/-- C9: every input string matching none of the names in the resolution
table resolves to the "none" kind with the `ASTRA_ERROR` diagnostic
logged — a soft degradation, not a failure of the resolution step. -/
theorem unmatched_filter_name_soft_degrades (s : String)
    (h : ∀ n ∈ catalogStrings, stringCompareLowerCase s n = false) :
    _convertStringToFilter s = (FILTER_NONE, true) := by
  have h01 := h "ram-lak" (by simp [catalogStrings])
  have h02 := h "shepp-logan" (by simp [catalogStrings])
  have h03 := h "cosine" (by simp [catalogStrings])
  have h04 := h "hamming" (by simp [catalogStrings])
  have h05 := h "hann" (by simp [catalogStrings])
  have h06 := h "none" (by simp [catalogStrings])
  have h07 := h "tukey" (by simp [catalogStrings])
  have h08 := h "lanczos" (by simp [catalogStrings])
  have h09 := h "triangular" (by simp [catalogStrings])
  have h10 := h "gaussian" (by simp [catalogStrings])
  have h11 := h "barlett-hann" (by simp [catalogStrings])
  have h12 := h "blackman" (by simp [catalogStrings])
  have h13 := h "nuttall" (by simp [catalogStrings])
  have h14 := h "blackman-harris" (by simp [catalogStrings])
  have h15 := h "blackman-nuttall" (by simp [catalogStrings])
  have h16 := h "flat-top" (by simp [catalogStrings])
  have h17 := h "kaiser" (by simp [catalogStrings])
  have h18 := h "parzen" (by simp [catalogStrings])
  have h19 := h "projection" (by simp [catalogStrings])
  have h20 := h "sinogram" (by simp [catalogStrings])
  have h21 := h "rprojection" (by simp [catalogStrings])
  have h22 := h "rsinogram" (by simp [catalogStrings])
  simp [_convertStringToFilter, h01, h02, h03, h04, h05, h06, h07, h08, h09,
    h10, h11, h12, h13, h14, h15, h16, h17, h18, h19, h20, h21, h22]

theorem unmatched_filter_name_soft_degrades_witness :
    _convertStringToFilter "not-a-filter" = (FILTER_NONE, true) :=
  unmatched_filter_name_soft_degrades "not-a-filter" (by decide)

/-- C10: in the declarative path with `FilterSinogramId` present, the
result of the dataset-manager lookup (including the `dynamic_cast` to a
2-D projection dataset) is dereferenced without a null check: whenever
the id does not resolve, the entry point crashes on the null pointer
(result `none` in the model) instead of reporting a configuration
error. -/
theorem filter_sinogram_lookup_unchecked (b : BaseSetup)
    (lookup : Int → Option Dataset) (cfg : Config) (s : AlgState) (id : Int)
    (hid : cfg.filterSinogramId = some id) (hlk : lookup id = none) :
    init_cfg (some b) lookup cfg s = none := by
  cases hft : cfg.filterType <;> simp [init_cfg, hid, hlk, hft]

theorem filter_sinogram_lookup_unchecked_witness :
    init_cfg (some wBase) (fun _ => none)
      { wCfgEmpty with filterSinogramId := some 7 }
      (mkInstance FILTER_NONE 0 false) = none :=
  filter_sinogram_lookup_unchecked wBase (fun _ => none)
    { wCfgEmpty with filterSinogramId := some 7 }
    (mkInstance FILTER_NONE 0 false) 7 rfl rfl

/-- The buffer produced by the programmatic path from a non-null raw
array: `memcpy` of `iFilterElementCount` floats, sized by the branch on
the per-angle-indexed kinds. -/
theorem init_prog_pfFilter (s : AlgState) (sino : Dataset)
    (recon : VolumeDataset) (eFilter : E_FBPFILTER) (arr : List ℚ)
    (w gpu : Int) (p : ℚ) :
    (init_prog s sino recon eFilter (some arr) w gpu p).1.m_pfFilter =
      some (arr.take (if eFilter ≠ FILTER_SINOGRAM ∧ eFilter ≠ FILTER_RSINOGRAM
                      then w.toNat else sino.angleCount)) := by
  simp only [init_prog]
  rw [check_pfFilter]

/-- C4: in programmatic initialization with a non-null raw filter array,
the copied coefficient count is the supplied width for the custom-data
kinds other than the per-angle-indexed ones, and the projection
dataset's angle count for the per-angle-indexed kinds (sinogram,
rsinogram) — for which the width argument plays no part in the sizing:
the resulting buffer is `arr.take sino.angleCount`, an expression
independent of `w`. -/
theorem prog_filter_buffer_sizing (s : AlgState) (sino : Dataset)
    (recon : VolumeDataset) (eFilter : E_FBPFILTER) (arr : List ℚ)
    (w gpu : Int) (p : ℚ) (hCustom : isCustomDataKind eFilter = true) :
    ((eFilter = FILTER_SINOGRAM ∨ eFilter = FILTER_RSINOGRAM) →
       (init_prog s sino recon eFilter (some arr) w gpu p).1.m_pfFilter =
         some (arr.take sino.angleCount)) ∧
    ((eFilter = FILTER_PROJECTION ∨ eFilter = FILTER_RPROJECTION) →
       (init_prog s sino recon eFilter (some arr) w gpu p).1.m_pfFilter =
         some (arr.take w.toNat)) ∧
    (∀ n : Nat, n ≤ arr.length →
       ((init_prog s sino recon eFilter (some arr) w gpu p).1.m_pfFilter.getD
          []).length ≤ arr.length ∧ (arr.take n).length = n) := by
  refine ⟨?_, ?_, ?_⟩
  · intro hAngle
    rw [init_prog_pfFilter]
    rcases hAngle with h | h <;> simp [h]
  · intro hChan
    rw [init_prog_pfFilter]
    rcases hChan with h | h <;> subst h <;> simp
  · intro n hn
    constructor
    · rw [init_prog_pfFilter]
      simp
    · simp [List.length_take, Nat.min_eq_left hn]

theorem prog_filter_buffer_sizing_witness :
    isCustomDataKind FILTER_SINOGRAM = true ∧
    (init_prog (mkInstance FILTER_NONE 0 false) wSino wRecon FILTER_SINOGRAM
        (some [7, 8, 9, 10]) 99 0 (-1)).1.m_pfFilter = some ([7, 8, 9, 10].take wSino.angleCount) := by
  refine ⟨by decide, ?_⟩
  exact (prog_filter_buffer_sizing (mkInstance FILTER_NONE 0 false) wSino wRecon
    FILTER_SINOGRAM [7, 8, 9, 10] 99 0 (-1) (by decide)).1 (Or.inl rfl)

/-- Inversion of the declarative path on base-setup success: a `some`
result comes from `initTail` applied to a state holding the bound
sinogram, the configured flag, and the filter buffer produced by the
`FilterSinogramId` branch. -/
theorem init_cfg_inversion (b : BaseSetup) (lookup : Int → Option Dataset)
    (cfg : Config) (s : AlgState) (s2 : AlgState) (ok : Bool)
    (heq : init_cfg (some b) lookup cfg s = some (s2, ok)) :
    ∃ s3, initTail cfg s3 = (s2, ok) ∧
      s3.m_pSinogram = some b.sinogram ∧
      s3.m_bIsInitialized = true ∧
      s3.m_bShortScan = (if s.m_bIsInitialized then clear s else s).m_bShortScan ∧
      ((∃ id ds, cfg.filterSinogramId = some id ∧ lookup id = some ds ∧
          s3.m_pfFilter = some (ds.data.take (ds.detectorCount * ds.angleCount)) ∧
          s3.m_iFilterWidth = (ds.detectorCount : Int) ∧
          s3.liveFilterAllocs =
            (if s.m_bIsInitialized then clear s else s).liveFilterAllocs + 1) ∨
       (cfg.filterSinogramId = none ∧ s3.m_pfFilter = none ∧
          s3.m_iFilterWidth = 0 ∧
          s3.liveFilterAllocs =
            (if s.m_bIsInitialized then clear s else s).liveFilterAllocs)) := by
  cases hfs : cfg.filterSinogramId with
  | some id =>
    cases hlk : lookup id with
    | none =>
      cases hft : cfg.filterType <;> simp [init_cfg, hft, hfs, hlk] at heq
    | some ds =>
      cases hft : cfg.filterType with
      | none =>
        simp only [init_cfg, hft, hfs, hlk, Option.some.injEq] at heq
        exact ⟨_, heq, rfl, rfl, rfl, Or.inl ⟨id, ds, rfl, hlk, rfl, rfl, rfl⟩⟩
      | some str =>
        simp only [init_cfg, hft, hfs, hlk, Option.some.injEq] at heq
        exact ⟨_, heq, rfl, rfl, rfl, Or.inl ⟨id, ds, rfl, hlk, rfl, rfl, rfl⟩⟩
  | none =>
    cases hft : cfg.filterType with
    | none =>
      simp only [init_cfg, hft, hfs, Option.some.injEq] at heq
      exact ⟨_, heq, rfl, rfl, rfl, Or.inr ⟨rfl, rfl, rfl, rfl⟩⟩
    | some str =>
      simp only [init_cfg, hft, hfs, Option.some.injEq] at heq
      exact ⟨_, heq, rfl, rfl, rfl, Or.inr ⟨rfl, rfl, rfl, rfl⟩⟩

/-- On base-setup success, the declarative path always returns a result
(it never fails before `check`) unless the unchecked dataset lookup
crashes. -/
theorem init_cfg_isSome (b : BaseSetup) (lookup : Int → Option Dataset)
    (cfg : Config) (s : AlgState)
    (h : ∀ id, cfg.filterSinogramId = some id → (lookup id).isSome = true) :
    (init_cfg (some b) lookup cfg s).isSome = true := by
  cases hfs : cfg.filterSinogramId with
  | some id =>
    have h2 := h id hfs
    cases hlk : lookup id with
    | none => rw [hlk] at h2; simp at h2
    | some ds => cases hft : cfg.filterType <;> simp [init_cfg, hft, hfs, hlk]
  | none => cases hft : cfg.filterType <;> simp [init_cfg, hft, hfs]

/-- C6: in declarative initialization, a present `FilterSinogramId`
resolving to a dataset of width `W` and angle count `A` yields an owned
buffer holding exactly the dataset's `W × A` elements (a byte-identical
copy of its data) with `W` recorded as the filter width; an absent
`FilterSinogramId` leaves the buffer null and the width 0. -/
theorem cfg_filter_sinogram_buffer (b : BaseSetup)
    (lookup : Int → Option Dataset) (cfg : Config) (s : AlgState) :
    (∀ id ds, cfg.filterSinogramId = some id → lookup id = some ds →
       ds.data.length = ds.detectorCount * ds.angleCount →
       (init_cfg (some b) lookup cfg s).isSome = true ∧
       ∀ s2 ok, init_cfg (some b) lookup cfg s = some (s2, ok) →
         s2.m_pfFilter = some ds.data ∧
         s2.m_iFilterWidth = (ds.detectorCount : Int)) ∧
    (cfg.filterSinogramId = none →
       (init_cfg (some b) lookup cfg s).isSome = true ∧
       ∀ s2 ok, init_cfg (some b) lookup cfg s = some (s2, ok) →
         s2.m_pfFilter = none ∧ s2.m_iFilterWidth = 0) := by
  constructor
  · intro id ds hid hlk hdata
    have htake : ds.data.take (ds.detectorCount * ds.angleCount) = ds.data := by
      rw [← hdata, List.take_length]
    refine ⟨init_cfg_isSome b lookup cfg s ?_, ?_⟩
    · intro id2 hid2
      rw [hid2] at hid
      injection hid with hh
      rw [hh, hlk]
      rfl
    · intro s2 ok heq
      obtain ⟨s3, ht, _, _, _, hcase⟩ := init_cfg_inversion b lookup cfg s s2 ok heq
      have hf : s2.m_pfFilter = s3.m_pfFilter := by
        rw [← initTail_pfFilter cfg s3, ht]
      have hw : s2.m_iFilterWidth = s3.m_iFilterWidth := by
        rw [← initTail_iFilterWidth cfg s3, ht]
      rcases hcase with ⟨id2, ds2, hid2, hlk2, hbuf, hwid, _⟩ | ⟨hid2, _, _, _⟩
      · rw [hid2] at hid
        injection hid with hh
        rw [hh] at hlk2
        rw [hlk2] at hlk
        injection hlk with hds
        subst hds
        exact ⟨by rw [hf, hbuf, htake], by rw [hw, hwid]⟩
      · rw [hid2] at hid
        exact absurd hid (by simp)
  · intro hid
    refine ⟨init_cfg_isSome b lookup cfg s ?_, ?_⟩
    · intro id2 hid2
      rw [hid2] at hid
      exact absurd hid (by simp)
    · intro s2 ok heq
      obtain ⟨s3, ht, _, _, _, hcase⟩ := init_cfg_inversion b lookup cfg s s2 ok heq
      have hf : s2.m_pfFilter = s3.m_pfFilter := by
        rw [← initTail_pfFilter cfg s3, ht]
      have hw : s2.m_iFilterWidth = s3.m_iFilterWidth := by
        rw [← initTail_iFilterWidth cfg s3, ht]
      rcases hcase with ⟨id2, ds2, hid2, _, _, _, _⟩ | ⟨_, hbuf, hwid, _⟩
      · rw [hid2] at hid
        exact absurd hid (by simp)
      · exact ⟨by rw [hf, hbuf], by rw [hw, hwid]⟩

theorem cfg_filter_sinogram_buffer_witness :
    ((init_cfg (some wBase) (fun i => if i = 7 then some wSino else none)
        { wCfgEmpty with filterSinogramId := some 7 }
        (mkInstance FILTER_NONE 0 false)).isSome = true) ∧
    (∀ s2 ok,
       init_cfg (some wBase) (fun i => if i = 7 then some wSino else none)
         { wCfgEmpty with filterSinogramId := some 7 }
         (mkInstance FILTER_NONE 0 false) = some (s2, ok) →
       s2.m_pfFilter = some wSino.data ∧
       s2.m_iFilterWidth = (wSino.detectorCount : Int)) :=
  (cfg_filter_sinogram_buffer wBase (fun i => if i = 7 then some wSino else none)
      { wCfgEmpty with filterSinogramId := some 7 }
      (mkInstance FILTER_NONE 0 false)).1 7 wSino rfl (by decide) (by decide)

/-- The tail of the declarative path never reads the `ShortScan` option
when the bound geometry is not fan-flat: the result is the same for any
two values of that configuration field. -/
theorem initTail_shortScan_unread (ft : Option String) (fsid : Option Int)
    (fp fD : Option ℚ) (v v2 : Option Bool) (s : AlgState)
    (hgeo : ∀ sino, s.m_pSinogram = some sino → sino.isFanFlat = false) :
    initTail ⟨ft, fsid, fp, fD, v⟩ s = initTail ⟨ft, fsid, fp, fD, v2⟩ s := by
  cases hms : s.m_pSinogram with
  | none => simp [initTail, hms]
  | some sino => simp [initTail, hms, hgeo sino hms]

/-- When the bound geometry is not fan-flat, the tail of the declarative
path leaves the short-scan flag as it found it. -/
theorem initTail_shortScan_not_fanflat (cfg : Config) (s : AlgState)
    (hgeo : ∀ sino, s.m_pSinogram = some sino → sino.isFanFlat = false) :
    (initTail cfg s).1.m_bShortScan = s.m_bShortScan := by
  cases hms : s.m_pSinogram with
  | none => simp [initTail, hms, check_shortScan]
  | some sino => simp [initTail, hms, hgeo sino hms, check_shortScan]

/-- The programmatic path unconditionally stores `false` into the
short-scan flag. -/
theorem init_prog_shortScan (s : AlgState) (sino : Dataset)
    (recon : VolumeDataset) (f : E_FBPFILTER) (pf : Option (List ℚ))
    (w gpu : Int) (p : ℚ) :
    (init_prog s sino recon f pf w gpu p).1.m_bShortScan = false := by
  cases pf <;> simp [init_prog, check_shortScan]

/-- C5: the `ShortScan` configuration field is consulted only when the
bound geometry is fan-beam with a flat detector.  For any other
geometry the declarative result is independent of that field (present
or absent), and the short-scan flag, when false before the call, is
still false after it; the programmatic path leaves short-scan
unconditionally false, for every geometry. -/
theorem shortscan_consulted_only_fanflat (b : BaseSetup)
    (lookup : Int → Option Dataset) (cfg : Config) (s : AlgState)
    (v : Option Bool) (hgeo : b.sinogram.isFanFlat = false) :
    (init_cfg (some b) lookup { cfg with shortScan := v } s =
       init_cfg (some b) lookup cfg s) ∧
    (s.m_bShortScan = false →
       ∀ s2 ok, init_cfg (some b) lookup cfg s = some (s2, ok) →
         s2.m_bShortScan = false) ∧
    (∀ sino recon f pf w gpu p,
       (init_prog s sino recon f pf w gpu p).1.m_bShortScan = false) := by
  refine ⟨?_, ?_, ?_⟩
  · obtain ⟨ft, fsid, fp, fD, ss⟩ := cfg
    cases fsid with
    | some id =>
      cases hlk : lookup id with
      | none => cases ft <;> simp [init_cfg, hlk]
      | some ds =>
        cases ft <;>
          (simp only [init_cfg, hlk]
           refine congrArg some (initTail_shortScan_unread _ _ _ _ _ _ _ ?_)
           intro sino hsin
           simp only [Option.some.injEq] at hsin
           rw [← hsin]
           exact hgeo)
    | none =>
      cases ft <;>
        (simp only [init_cfg]
         refine congrArg some (initTail_shortScan_unread _ _ _ _ _ _ _ ?_)
         intro sino hsin
         simp only [Option.some.injEq] at hsin
         rw [← hsin]
         exact hgeo)
  · intro hss s2 ok heq
    obtain ⟨s3, ht, hps, _, hshort, _⟩ := init_cfg_inversion b lookup cfg s s2 ok heq
    have h0 : (if s.m_bIsInitialized then clear s else s).m_bShortScan = false := by
      by_cases hb : s.m_bIsInitialized = true
      · simp [hb, clear]
      · simp [hb, hss]
    have h1 : (initTail cfg s3).1.m_bShortScan = s3.m_bShortScan := by
      refine initTail_shortScan_not_fanflat cfg s3 ?_
      intro sino hsin
      rw [hps] at hsin
      injection hsin with h2
      rw [← h2]
      exact hgeo
    rw [ht] at h1
    rw [h1, hshort, h0]
  · intro sino recon f pf w gpu p
    exact init_prog_shortScan s sino recon f pf w gpu p

theorem shortscan_consulted_only_fanflat_witness :
    wBase.sinogram.isFanFlat = false ∧
    init_cfg (some wBase) (fun _ => none)
        { wCfgEmpty with shortScan := some true }
        (mkInstance FILTER_NONE 0 false) =
      init_cfg (some wBase) (fun _ => none) wCfgEmpty
        (mkInstance FILTER_NONE 0 false) ∧
    (init_prog (mkInstance FILTER_NONE 0 false) wSino wRecon FILTER_RAMLAK
        none 0 0 0).1.m_bShortScan = false := by
  refine ⟨by decide, ?_, ?_⟩
  · exact (shortscan_consulted_only_fanflat wBase (fun _ => none) wCfgEmpty
      (mkInstance FILTER_NONE 0 false) (some true) (by decide)).1
  · exact (shortscan_consulted_only_fanflat wBase (fun _ => none) wCfgEmpty
      (mkInstance FILTER_NONE 0 false) (some true) (by decide)).2.2
      wSino wRecon FILTER_RAMLAK none 0 0 0

/-- The programmatic entry point sets `m_bIsInitialized = true` before
running `check`, and a failing `check` does not reset it, so the flag
ends `true` whatever `check` returns. -/
theorem init_prog_isInit (s : AlgState) (sino : Dataset)
    (recon : VolumeDataset) (f : E_FBPFILTER) (pf : Option (List ℚ))
    (w gpu : Int) (p : ℚ) :
    (init_prog s sino recon f pf w gpu p).1.m_bIsInitialized = true := by
  cases pf with
  | none =>
    simp only [init_prog]
    exact check_isInit_true _ rfl
  | some arr =>
    simp only [init_prog]
    exact check_isInit_true _ rfl

/-- C8 counterexample: a programmatic initialization with device index
−2 (all else valid) makes `check` fail — the entry point returns
`false` — yet the instance ends marked configured
(`m_bIsInitialized = true`), contradicting "leaves the instance
not-ready (not marked configured)". -/
theorem check_failure_leaves_configured_cex :
    (init_prog (mkInstance FILTER_NONE 0 false) wSino wRecon FILTER_RAMLAK
        none 0 (-2) (-1)).2 = false ∧
    (init_prog (mkInstance FILTER_NONE 0 false) wSino wRecon FILTER_RAMLAK
        none 0 (-2) (-1)).1.m_bIsInitialized = true := by
  decide

/-- C8 amended: whenever a `check()` precondition is violated, the call
reports a configuration error naming the violated field and the entry
point returns `false`, but the instance is not left unmarked: both
entry points set the configured flag before running `check`, and a
failed `check` leaves the flag as it found it — so after either entry
point reaches `check`, the flag is `true` even on failure. -/
theorem check_failure_reporting (s : AlgState) :
    ((check s).2.1 = false →
       (check s).2.2.isSome = true ∧
       (check s).1.m_bIsInitialized = s.m_bIsInitialized) ∧
    (∀ sino recon f pf w gpu p,
       (init_prog s sino recon f pf w gpu p).1.m_bIsInitialized = true) ∧
    (∀ b lookup cfg s2 ok,
       init_cfg (some b) lookup cfg s = some (s2, ok) →
       s2.m_bIsInitialized = true) := by
  refine ⟨?_, ?_, ?_⟩
  · intro h
    exact ⟨check_fail_reports s h, check_isInit_unchanged_of_fail s h⟩
  · intro sino recon f pf w gpu p
    exact init_prog_isInit s sino recon f pf w gpu p
  · intro b lookup cfg s2 ok heq
    obtain ⟨s3, ht, _, hinit, _, _⟩ := init_cfg_inversion b lookup cfg s s2 ok heq
    have h1 := initTail_isInit_true cfg s3 hinit
    rw [ht] at h1
    exact h1

theorem check_failure_reporting_witness :
    (check (mkInstance FILTER_NONE 0 false)).2.1 = false ∧
    ((check (mkInstance FILTER_NONE 0 false)).2.2.isSome = true ∧
     (check (mkInstance FILTER_NONE 0 false)).1.m_bIsInitialized =
       (mkInstance FILTER_NONE 0 false).m_bIsInitialized) :=
  ⟨by decide, (check_failure_reporting (mkInstance FILTER_NONE 0 false)).1 (by decide)⟩

/-- The single-owner buffer invariant: the ghost count of outstanding
`new float[]` allocations for `m_pfFilter` is 1 when a buffer is owned
and 0 when the pointer is null, and a buffer is only ever owned by an
instance whose configured flag is set (so re-initialization always
routes through the clear). -/
def BufInv (s : AlgState) : Prop :=
  s.liveFilterAllocs = (if s.m_pfFilter.isSome then 1 else 0) ∧
  (s.m_pfFilter.isSome = true → s.m_bIsInitialized = true)

theorem bufInv_mkInstance (e0 : E_FBPFILTER) (w0 : Int) (b0 : Bool) :
    BufInv (mkInstance e0 w0 b0) := by
  simp [BufInv, mkInstance]

/-- From any state satisfying the invariant, the conditional clear at
the top of both entry points leads to a state with no owned buffer and
no outstanding allocation. -/
theorem cleared_of_bufInv (s : AlgState) (h : BufInv s) :
    (if s.m_bIsInitialized then clear s else s).m_pfFilter = none ∧
    (if s.m_bIsInitialized then clear s else s).liveFilterAllocs = 0 := by
  obtain ⟨h1, h2⟩ := h
  by_cases hb : s.m_bIsInitialized = true
  · simp [hb, clear, h1]
  · have hf : s.m_pfFilter = none := by
      cases hfs : s.m_pfFilter with
      | none => rfl
      | some arr => exact absurd (h2 (by rw [hfs]; rfl)) hb
    simp [hb, hf, h1]

theorem bufInv_init_prog (s : AlgState) (sino : Dataset)
    (recon : VolumeDataset) (f : E_FBPFILTER) (pf : Option (List ℚ))
    (w gpu : Int) (p : ℚ) (h : BufInv s) :
    BufInv (init_prog s sino recon f pf w gpu p).1 := by
  obtain ⟨hbuf, hcnt⟩ := cleared_of_bufInv s h
  cases pf with
  | none =>
    refine ⟨?_, fun _ => init_prog_isInit s sino recon f none w gpu p⟩
    simp only [init_prog]
    simp only [check_liveFilterAllocs, check_pfFilter]
    simp [hcnt]
  | some arr =>
    refine ⟨?_, fun _ => init_prog_isInit s sino recon f (some arr) w gpu p⟩
    simp only [init_prog]
    simp only [check_liveFilterAllocs, check_pfFilter]
    simp [hcnt]

theorem bufInv_init_cfg (base : Option BaseSetup)
    (lookup : Int → Option Dataset) (cfg : Config) (s s2 : AlgState)
    (ok : Bool) (h : BufInv s)
    (heq : init_cfg base lookup cfg s = some (s2, ok)) : BufInv s2 := by
  obtain ⟨hbuf, hcnt⟩ := cleared_of_bufInv s h
  cases base with
  | none =>
    simp only [init_cfg, Option.some.injEq] at heq
    injection heq with h1 h2
    rw [← h1]
    constructor
    · simp [hbuf, hcnt]
    · intro hcontra
      simp [hbuf] at hcontra
  | some b =>
    obtain ⟨s3, ht, hps, hinit, _, hcase⟩ :=
      init_cfg_inversion b lookup cfg s s2 ok heq
    have hf : s2.m_pfFilter = s3.m_pfFilter := by
      have h2 := initTail_pfFilter cfg s3
      rw [ht] at h2
      exact h2
    have hc : s2.liveFilterAllocs = s3.liveFilterAllocs := by
      have h2 := initTail_liveFilterAllocs cfg s3
      rw [ht] at h2
      exact h2
    have hini2 : s2.m_bIsInitialized = true := by
      have h2 := initTail_isInit_true cfg s3 hinit
      rw [ht] at h2
      exact h2
    rcases hcase with ⟨id, ds, _, _, hb3, _, hc3⟩ | ⟨_, hb3, _, hc3⟩
    · refine ⟨?_, fun _ => hini2⟩
      rw [hc, hc3, hcnt, hf, hb3]
      simp
    · refine ⟨?_, fun _ => hini2⟩
      rw [hc, hc3, hcnt, hf, hb3]
      simp

theorem bufInv_runInits (calls : List InitCall) :
    ∀ s s2, BufInv s → runInits s calls = some s2 → BufInv s2 := by
  induction calls with
  | nil =>
    intro s s2 h heq
    simp only [runInits, Option.some.injEq] at heq
    rw [← heq]
    exact h
  | cons c rest ih =>
    intro s s2 h heq
    cases c with
    | declarative base lookup cfg =>
      simp only [runInits] at heq
      cases hic : init_cfg base lookup cfg s with
      | none => rw [hic] at heq; exact absurd heq (by simp)
      | some pr =>
        obtain ⟨sm, okm⟩ := pr
        rw [hic] at heq
        exact ih sm s2 (bufInv_init_cfg base lookup cfg s sm okm h hic) heq
    | programmatic sino recon f pf w gpu p =>
      simp only [runInits] at heq
      exact ih _ s2 (bufInv_init_prog s sino recon f pf w gpu p h) heq

/-- C2: starting from a freshly constructed instance, any sequence of
(re-)initializations through either entry point leaves exactly one
outstanding filter-buffer allocation when a buffer is owned and none
when the pointer is null — the previously owned buffer is always
released (by the clear) before any new allocation, so no allocation is
leaked and no freed buffer remains referenced. -/
theorem reinit_single_outstanding_allocation (e0 : E_FBPFILTER) (w0 : Int)
    (b0 : Bool) (calls : List InitCall) (s : AlgState)
    (h : runInits (mkInstance e0 w0 b0) calls = some s) :
    s.liveFilterAllocs = (if s.m_pfFilter.isSome then 1 else 0) :=
  (bufInv_runInits calls (mkInstance e0 w0 b0) s (bufInv_mkInstance e0 w0 b0) h).1

/-- Three successive re-initializations, each allocating a buffer,
including a declarative one copying a filter sinogram. -/
def wCalls : List InitCall :=
  [ .programmatic wSino wRecon FILTER_PROJECTION (some [1, 2]) 2 0 0,
    .declarative (some wBase) (fun i => if i = 7 then some wSino else none)
      { wCfgEmpty with filterSinogramId := some 7 },
    .programmatic wSino wRecon FILTER_SINOGRAM (some [5, 6, 7]) 9 0 0 ]

def wFinal : AlgState :=
  (runInits (mkInstance FILTER_NONE 0 false) wCalls).getD
    (mkInstance FILTER_NONE 0 false)

theorem reinit_single_outstanding_allocation_witness :
    runInits (mkInstance FILTER_NONE 0 false) wCalls = some wFinal ∧
    wFinal.liveFilterAllocs = (if wFinal.m_pfFilter.isSome then 1 else 0) :=
  ⟨by decide,
   reinit_single_outstanding_allocation FILTER_NONE 0 false wCalls wFinal
     (by decide)⟩

end astra
